import Mathlib

set_option linter.unusedVariables false

/-!
Shallow embedding of `src/self-preview/self_preview.py` (the self-preview
rendering pipeline): configuration constants, the overlay grid primitive,
the abstract renderer capability, the single-item render pipeline
(`render_items`), the overview grid composer (`render_overview`) and the
run orchestrator (`run`).

Modelling conventions:
* A Pillow `Image` is abstracted to its pixel dimensions (`Canvas`); the
  claims under scrutiny only concern geometry, placement and control flow,
  never pixel contents.
* Side effects (directory creation, file writes, warnings) are reified as
  explicit event lists / result values.
* Python's `math.sqrt` / float division in the grid geometry are modelled
  as exact real arithmetic; the integer characterisation
  (least `k` with `2*k^2 ≥ 3*n`) is proved equal to `⌈√(n * 1.5)⌉₊` below.
* Python's `range(0, stop, step)` raises `ValueError` when `step = 0`;
  this is modelled by an `Option` result (`none` = exception).
-/

namespace SelfPreview

/-- Configuration constant `OUTPUT_DIR` from the source. -/
def OUTPUT_DIR : String := "build/previews"

/-- Configuration constant `OVERVIEW_FILENAME` from the source. -/
def OVERVIEW_FILENAME : String := "overview.png"

/-- Configuration constant `DEFAULT_SIZE` from the source. -/
def DEFAULT_SIZE : Nat := 400

/-- Configuration constant `GRID_CELL_SIZE` from the source. -/
def GRID_CELL_SIZE : Nat := 120

/-- Configuration constant `GRID_PADDING` from the source. -/
def GRID_PADDING : Nat := 8

/-- A Pillow image buffer, abstracted to its dimensions. -/
structure Canvas where
  width : Nat
  height : Nat
  deriving DecidableEq

/-- Python `range(0, stop, step)` for a natural `stop` and integer `step`,
returning the list of generated values. `none` models the `ValueError`
Python raises when `step = 0`. For `step < 0` the range is empty because
the start `0` is never greater than the non-negative `stop`. -/
def pyRange (stop : Nat) (step : Int) : Option (List Int) :=
  if step = 0 then none
  else if step < 0 then some []
  else some ((List.range ((stop + step.toNat - 1) / step.toNat)).map
    fun i => Int.ofNat i * step)

/-- The line positions produced by one `draw_grid` call: x coordinates of
vertical lines and y coordinates of horizontal lines. -/
structure GridLines where
  vertical : List Int
  horizontal : List Int
  deriving DecidableEq

/-- `PreviewRenderer.draw_grid`: iterates `range(0, width, spacing)` for
vertical lines and `range(0, height, spacing)` for horizontal lines.
`none` models the uncaught `ValueError` from `range` when `spacing = 0`
(raised before any line is drawn). -/
def draw_grid (width height : Nat) (spacing : Int) : Option GridLines :=
  match pyRange width spacing, pyRange height spacing with
  | some xs, some ys => some ⟨xs, ys⟩
  | _, _ => none

/-- Single-character string substitution: Python `s.replace(a, b)` with a
one-character pattern `a` and one-character replacement `b`. -/
def replaceChar (a b : Char) (s : String) : String :=
  ⟨s.data.map fun c => if c = a then b else c⟩

/-- Filename sanitisation from `render_items`:
`str(name).replace("/", "_").replace("\\", "_")`. -/
def safeName (name : String) : String :=
  replaceChar '\\' '_' (replaceChar '/' '_' name)

/-- `os.path.join(a, b)` for two components under POSIX rules: if `b` is
absolute the result is `b`; if `a` is empty or ends with a separator the
parts are concatenated as-is; otherwise a separator is inserted. -/
def posixJoin (a b : String) : String :=
  if b.data.head? = some '/' then b
  else if a.data = [] ∨ a.data.getLast? = some '/' then a ++ b
  else a ++ "/" ++ b

/-- The abstract renderer capability (`PreviewRenderer` subclass state):
`output_dir` together with the three required operations
`load_artifact`, `render_item` and `get_items`. `render_item` returns
`none` exactly where the Python method returns `None`. -/
structure Renderer where
  output_dir : String
  load_artifact : Bool
  render_item : String → Nat → Bool → Option Canvas
  get_items : List String

/-- One observable side effect of the single-item pipeline. -/
inductive Event where
  | mkdir (dir : String)
  | warned (name : String)
  | saved (name : String) (path : String)
  deriving DecidableEq

/-- The loop body of `render_items` for one item: a warning event when
`render_item` returns `None`, otherwise a save event at the sanitised
path. -/
def itemEvent (r : Renderer) (size : Nat) (overlays : Bool)
    (name : String) : Event :=
  match r.render_item name size overlays with
  | none => Event.warned name
  | some _ => Event.saved name (posixJoin r.output_dir (safeName name ++ ".png"))

/-- `PreviewRenderer.render_items`: creates the output directory, then
processes every requested item in order. -/
def render_items (r : Renderer) (item_names : List String) (size : Nat)
    (overlays : Bool) : List Event :=
  Event.mkdir r.output_dir :: item_names.map (itemEvent r size overlays)

/-- Bounded linear search for the least `k ≥ start` with `t ≤ 2 * k * k`,
returning `start + fuel` when the search space is exhausted. -/
def searchK (t : Nat) : Nat → Nat → Nat
  | k, 0 => k
  | k, fuel + 1 => if t ≤ 2 * k * k then k else searchK t (k + 1) fuel

/-- Column count from `render_overview`, uncapped:
`math.ceil(math.sqrt(n * 1.5))` computed exactly over the integers as the
least `k` with `2 * k * k ≥ 3 * n` (the equality with `⌈√(n * 1.5)⌉₊` is
proved below). -/
def ceilSqrtThreeHalves (n : Nat) : Nat :=
  searchK (3 * n) 0 (n + 1)

/-- Column count from `render_overview`:
`cols = min(math.ceil(math.sqrt(n * 1.5)), 16)`. -/
def overviewCols (n : Nat) : Nat :=
  min (ceilSqrtThreeHalves n) 16

/-- Row count from `render_overview`: `rows = math.ceil(n / cols)`,
computed exactly over the integers (the equality with the rational
ceiling is proved below). -/
def overviewRows (n : Nat) : Nat :=
  (n + overviewCols n - 1) / overviewCols n

/-- One cell of the overview that actually received a pasted item image:
the enumeration index, the item name, the cell's top-left origin and the
pasted (possibly resized) canvas. Cells whose item rendered to `None`
have no `CellPaste` and stay background-only. -/
structure CellPaste where
  idx : Nat
  name : String
  x : Nat
  y : Nat
  canvas : Canvas
  deriving DecidableEq

/-- The `for idx, name in enumerate(items)` loop of `render_overview`,
started at enumeration index `i`: computes each cell origin from the
index, skips items whose render returns `None`, and resizes any canvas
whose dimensions differ from the requested cell size. -/
def overviewPastes (r : Renderer) (size cols : Nat) :
    Nat → List String → List CellPaste
  | _, [] => []
  | i, name :: rest =>
    match r.render_item name size false with
    | none => overviewPastes r size cols (i + 1) rest
    | some c =>
      { idx := i, name := name,
        x := GRID_PADDING + (i % cols) * (size + GRID_PADDING),
        y := GRID_PADDING + (i / cols) * (size + GRID_PADDING),
        canvas := if c.width = size ∧ c.height = size then c
          else ⟨size, size⟩ } :: overviewPastes r size cols (i + 1) rest

/-- The finished overview composite: allocated canvas dimensions, the
cells that received pastes, and the path the file is saved to. -/
structure Overview where
  width : Nat
  height : Nat
  pastes : List CellPaste
  path : String
  deriving DecidableEq

/-- Outcome of `render_overview`: either the early `"No items to render"`
notice (no file written) or a saved composite. -/
inductive OverviewResult where
  | notice
  | saved (o : Overview)
  deriving DecidableEq

/-- `PreviewRenderer.render_overview`: fetches `get_items()`, returns the
notice on an empty list, otherwise computes the grid geometry, pastes the
items and saves the composite under `OVERVIEW_FILENAME`. -/
def render_overview (r : Renderer) (size : Nat) (overlays : Bool) :
    OverviewResult :=
  let items := r.get_items
  if items.isEmpty then OverviewResult.notice
  else
    let n := items.length
    let cols := overviewCols n
    let rows := overviewRows n
    let cell := size + GRID_PADDING
    OverviewResult.saved
      { width := cols * cell + GRID_PADDING
        height := rows * cell + GRID_PADDING
        pastes := overviewPastes r size cols 0 items
        path := posixJoin r.output_dir OVERVIEW_FILENAME }

/-- Observable outcome of one `run` call: the boolean return value, the
events of the single-item pipeline (empty when that stage is skipped) and
the overview stage's result (`none` when that stage never ran). -/
structure RunResult where
  ok : Bool
  itemEvents : List Event
  overview : Option OverviewResult
  deriving DecidableEq

/-- `PreviewRenderer.run`: aborts when `load_artifact()` fails; in
overview-only mode runs just the composer; otherwise falls back to
`get_items()` when the caller-supplied subset is `None` or empty (Python
truthiness), runs the single-item pipeline, then the composer unless
suppressed. -/
def run (r : Renderer) (items : Option (List String)) (size : Nat)
    (overlays overview_only no_overview : Bool) : RunResult :=
  if r.load_artifact = false then ⟨false, [], none⟩
  else if overview_only then
    ⟨true, [], some (render_overview r GRID_CELL_SIZE overlays)⟩
  else
    let target_items := match items with
      | none => r.get_items
      | some l => if l.isEmpty then r.get_items else l
    let events := render_items r target_items size overlays
    if no_overview then ⟨true, events, none⟩
    else ⟨true, events, some (render_overview r GRID_CELL_SIZE overlays)⟩

/-- A renderer with two items that renders everything successfully. -/
def twoItemRenderer : Renderer :=
  { output_dir := "build/previews"
    load_artifact := true
    render_item := fun _ size _ => some ⟨size, size⟩
    get_items := ["a", "b"] }

/-- A renderer whose item `"b"` always fails to render. -/
def skipRenderer : Renderer :=
  { output_dir := "out"
    load_artifact := true
    render_item := fun name size _ => if name = "b" then none else some ⟨size, size⟩
    get_items := ["a", "b", "c"] }

/-- A renderer with no items at all. -/
def emptyRenderer : Renderer :=
  { output_dir := "out"
    load_artifact := true
    render_item := fun _ size _ => some ⟨size, size⟩
    get_items := [] }

/-- A renderer whose artifact load fails. -/
def failingRenderer : Renderer :=
  { output_dir := "out"
    load_artifact := false
    render_item := fun _ size _ => some ⟨size, size⟩
    get_items := ["a"] }

example : overviewCols 10 = 4 := by decide
example : overviewRows 10 = 3 := by decide
example : overviewCols 1 = 2 := by decide
example : overviewRows 1 = 1 := by decide
example : overviewCols 2 = 2 := by decide
example : draw_grid 10 10 0 = none := by decide
example : draw_grid 10 10 (-3) = some ⟨[], []⟩ := by decide
example : draw_grid 10 10 12 = some ⟨[0], [0]⟩ := by decide
example : draw_grid 10 4 3 = some ⟨[0, 3, 6, 9], [0, 3]⟩ := by decide
example : safeName "a/b\\c" = "a_b_c" := by decide
example : posixJoin "out" "x.png" = "out/x.png" := by decide

/-! Helper lemmas about the grid arithmetic. -/

theorem searchK_ge (t : Nat) : ∀ fuel k, k ≤ searchK t k fuel := by
  intro fuel
  induction fuel with
  | zero => intro k; simp [searchK]
  | succ m ih =>
    intro k
    simp only [searchK]
    split
    · exact Nat.le_refl k
    · exact Nat.le_trans (Nat.le_succ k) (ih (k + 1))

theorem searchK_le (t : Nat) : ∀ fuel k, searchK t k fuel ≤ k + fuel := by
  intro fuel
  induction fuel with
  | zero => intro k; simp [searchK]
  | succ m ih =>
    intro k
    simp only [searchK]
    split
    · omega
    · have := ih (k + 1)
      omega

theorem searchK_holds (t : Nat) :
    ∀ fuel k, t ≤ 2 * (k + fuel) * (k + fuel) →
      t ≤ 2 * searchK t k fuel * searchK t k fuel := by
  intro fuel
  induction fuel with
  | zero => intro k h; simpa [searchK] using h
  | succ m ih =>
    intro k h
    simp only [searchK]
    split
    · assumption
    · apply ih (k + 1)
      have e : k + 1 + m = k + (m + 1) := by omega
      rw [e]
      exact h

theorem searchK_not_below (t : Nat) :
    ∀ fuel k j, k ≤ j → j < searchK t k fuel → ¬ t ≤ 2 * j * j := by
  intro fuel
  induction fuel with
  | zero =>
    intro k j hkj hlt
    simp only [searchK] at hlt
    omega
  | succ m ih =>
    intro k j hkj hlt
    simp only [searchK] at hlt
    by_cases hc : t ≤ 2 * k * k
    · rw [if_pos hc] at hlt; omega
    · rw [if_neg hc] at hlt
      rcases Nat.eq_or_lt_of_le hkj with h | h
      · subst h; exact hc
      · exact ih (k + 1) j h hlt

theorem ceilSqrtThreeHalves_spec (n : Nat) :
    3 * n ≤ 2 * ceilSqrtThreeHalves n * ceilSqrtThreeHalves n ∧
    ∀ j, j < ceilSqrtThreeHalves n → 2 * j * j < 3 * n := by
  constructor
  · apply searchK_holds
    have h : 2 * (0 + (n + 1)) * (0 + (n + 1)) = 2 * (n * n) + 4 * n + 2 := by ring
    rw [h]
    omega
  · intro j hj
    have := searchK_not_below (3 * n) (n + 1) 0 j (Nat.zero_le j) hj
    omega

theorem ceilSqrtThreeHalves_pos (n : Nat) (hn : 1 ≤ n) :
    1 ≤ ceilSqrtThreeHalves n := by
  by_contra h
  have h0 : ceilSqrtThreeHalves n = 0 := by omega
  have := (ceilSqrtThreeHalves_spec n).1
  rw [h0] at this
  omega

theorem overviewCols_pos (n : Nat) (hn : 1 ≤ n) : 1 ≤ overviewCols n := by
  have := ceilSqrtThreeHalves_pos n hn
  simp only [overviewCols]
  omega

/-- The integer search computes exactly `⌈√(n * 1.5)⌉₊`. -/
theorem ceilSqrtThreeHalves_eq_ceil_sqrt (n : Nat) (hn : 1 ≤ n) :
    ceilSqrtThreeHalves n = ⌈Real.sqrt ((n : ℝ) * 1.5)⌉₊ := by
  obtain ⟨hub, hmin⟩ := ceilSqrtThreeHalves_spec n
  obtain ⟨j, hj⟩ : ∃ j, ceilSqrtThreeHalves n = j + 1 := by
    have := ceilSqrtThreeHalves_pos n hn
    exact ⟨ceilSqrtThreeHalves n - 1, by omega⟩
  rw [hj] at hub
  have hlow : 2 * j * j < 3 * n := hmin j (by omega)
  symm
  rw [hj, Nat.ceil_eq_iff (by omega)]
  have hxnn : (0 : ℝ) ≤ (n : ℝ) * 1.5 := by positivity
  constructor
  · have hcast : ((j + 1 - 1 : Nat) : ℝ) = (j : ℝ) := by norm_num
    rw [hcast, Real.lt_sqrt (by positivity)]
    have : (2 : ℝ) * j * j < 3 * n := by exact_mod_cast hlow
    nlinarith
  · have hk : ((j : ℝ) + 1) ^ 2 ≥ (n : ℝ) * 1.5 := by
      have : (3 : ℝ) * n ≤ 2 * (j + 1) * (j + 1) := by exact_mod_cast hub
      nlinarith
    have := Real.sqrt_le_sqrt hk
    rw [Real.sqrt_sq (by positivity)] at this
    calc Real.sqrt ((n : ℝ) * 1.5) ≤ (j : ℝ) + 1 := this
      _ = ((j + 1 : Nat) : ℝ) := by push_cast; ring

/-- Ceiling division: for a positive divisor, `(n + c - 1) / c` is the
ceiling of the exact rational quotient `n / c`. -/
theorem add_pred_div_eq_ceil (n c : Nat) (hc : 1 ≤ c) :
    (n + c - 1) / c = ⌈(n : ℚ) / (c : ℚ)⌉₊ := by
  rcases Nat.eq_zero_or_pos n with h0 | hpos
  · subst h0
    simp only [Nat.zero_add, Nat.cast_zero, zero_div, Nat.ceil_zero]
    exact Nat.div_eq_of_lt (by omega)
  · have hdm := Nat.div_add_mod (n + c - 1) c
    set r := (n + c - 1) / c with hr
    set t := (n + c - 1) % c with ht
    have htlt : t < c := Nat.mod_lt _ (by omega)
    have hge : n ≤ c * r := by omega
    have hrpos : 1 ≤ r := by
      rcases Nat.eq_zero_or_pos r with h | h
      · rw [h] at hge; omega
      · exact h
    have hlt : c * (r - 1) < n := by
      have hmul : c * (r - 1) = c * r - c := by
        rcases Nat.exists_eq_add_of_le hrpos with ⟨m, hm⟩
        have h1 : 1 + m - 1 = m := by omega
        rw [hm, h1, Nat.mul_add, Nat.mul_one]
        omega
      omega
    symm
    rw [Nat.ceil_eq_iff (by omega)]
    have hcq : (0 : ℚ) < (c : ℚ) := by exact_mod_cast (by omega : 0 < c)
    constructor
    · rw [lt_div_iff₀ hcq]
      have hcast : ((r - 1 : Nat) : ℚ) * (c : ℚ) = ((c * (r - 1) : Nat) : ℚ) := by
        push_cast
        ring
      rw [hcast]
      exact_mod_cast hlt
    · rw [div_le_iff₀ hcq]
      have hcast : ((r : Nat) : ℚ) * (c : ℚ) = ((c * r : Nat) : ℚ) := by
        push_cast
        ring
      rw [hcast]
      exact_mod_cast hge

theorem overviewRows_mul_ge (n : Nat) (hn : 1 ≤ n) :
    n ≤ overviewRows n * overviewCols n := by
  have hc := overviewCols_pos n hn
  set c := overviewCols n with hcdef
  have hdm := Nat.div_add_mod (n + c - 1) c
  have hmod : (n + c - 1) % c < c := Nat.mod_lt _ (by omega)
  simp only [overviewRows, ← hcdef]
  set r := (n + c - 1) / c
  have : c * r = n + c - 1 - (n + c - 1) % c := by omega
  have hcomm : r * c = c * r := Nat.mul_comm r c
  omega

/-! Helper lemmas about the overview paste loop. -/

theorem overviewPastes_coords (r : Renderer) (size cols : Nat) :
    ∀ l i, ∀ p ∈ overviewPastes r size cols i l,
      p.x = GRID_PADDING + (p.idx % cols) * (size + GRID_PADDING) ∧
      p.y = GRID_PADDING + (p.idx / cols) * (size + GRID_PADDING) := by
  intro l
  induction l with
  | nil => intro i p hp; simp [overviewPastes] at hp
  | cons a rest ih =>
    intro i p hp
    simp only [overviewPastes] at hp
    rcases hren : r.render_item a size false with _ | c
    · rw [hren] at hp
      exact ih (i + 1) p hp
    · rw [hren] at hp
      rcases List.mem_cons.mp hp with h | h
      · subst h; exact ⟨rfl, rfl⟩
      · exact ih (i + 1) p h

theorem overviewPastes_idx_ge (r : Renderer) (size cols : Nat) :
    ∀ l i, ∀ p ∈ overviewPastes r size cols i l, i ≤ p.idx := by
  intro l
  induction l with
  | nil => intro i p hp; simp [overviewPastes] at hp
  | cons a rest ih =>
    intro i p hp
    simp only [overviewPastes] at hp
    rcases hren : r.render_item a size false with _ | c
    · rw [hren] at hp
      have := ih (i + 1) p hp
      omega
    · rw [hren] at hp
      rcases List.mem_cons.mp hp with h | h
      · subst h; exact Nat.le_refl i
      · have := ih (i + 1) p h
        omega

theorem overviewPastes_idx_lt (r : Renderer) (size cols : Nat) :
    ∀ l i, ∀ p ∈ overviewPastes r size cols i l, p.idx < i + l.length := by
  intro l
  induction l with
  | nil => intro i p hp; simp [overviewPastes] at hp
  | cons a rest ih =>
    intro i p hp
    simp only [overviewPastes] at hp
    rcases hren : r.render_item a size false with _ | c
    · rw [hren] at hp
      have := ih (i + 1) p hp
      simp only [List.length_cons]
      omega
    · rw [hren] at hp
      rcases List.mem_cons.mp hp with h | h
      · subst h
        simp only [List.length_cons]
        omega
      · have := ih (i + 1) p h
        simp only [List.length_cons]
        omega

theorem overviewPastes_skip_none (r : Renderer) (size cols : Nat)
    (x : String) (l : List String) (i : Nat)
    (hx : r.render_item x size false = none) :
    overviewPastes r size cols i (x :: l) =
      overviewPastes r size cols (i + 1) l := by
  simp [overviewPastes, hx]

theorem overviewPastes_cons_some (r : Renderer) (size cols : Nat)
    (x : String) (l : List String) (i : Nat) (c : Canvas)
    (hx : r.render_item x size false = some c) :
    overviewPastes r size cols i (x :: l) =
      { idx := i, name := x,
        x := GRID_PADDING + (i % cols) * (size + GRID_PADDING),
        y := GRID_PADDING + (i / cols) * (size + GRID_PADDING),
        canvas := if c.width = size ∧ c.height = size then c
          else ⟨size, size⟩ } :: overviewPastes r size cols (i + 1) l := by
  simp [overviewPastes, hx]

theorem overviewPastes_append (r : Renderer) (size cols : Nat) :
    ∀ l1 l2 i, overviewPastes r size cols i (l1 ++ l2) =
      overviewPastes r size cols i l1 ++
        overviewPastes r size cols (i + l1.length) l2 := by
  intro l1
  induction l1 with
  | nil => intro l2 i; simp [overviewPastes]
  | cons a rest ih =>
    intro l2 i
    rw [List.cons_append]
    cases hren : r.render_item a size false with
    | none =>
      rw [overviewPastes_skip_none r size cols a (rest ++ l2) i hren,
        overviewPastes_skip_none r size cols a rest i hren, ih]
      simp only [List.length_cons]
      have e : i + 1 + rest.length = i + (rest.length + 1) := by omega
      rw [e]
    | some c =>
      rw [overviewPastes_cons_some r size cols a (rest ++ l2) i c hren,
        overviewPastes_cons_some r size cols a rest i c hren, ih]
      simp only [List.cons_append, List.length_cons]
      have e : i + 1 + rest.length = i + (rest.length + 1) := by omega
      rw [e]

/-- Unfolding of `render_overview` on a non-empty item list. -/
theorem render_overview_nonempty (r : Renderer) (size : Nat) (ov : Bool)
    (h : r.get_items ≠ []) :
    render_overview r size ov = OverviewResult.saved
      { width := overviewCols r.get_items.length * (size + GRID_PADDING) + GRID_PADDING
        height := overviewRows r.get_items.length * (size + GRID_PADDING) + GRID_PADDING
        pastes := overviewPastes r size (overviewCols r.get_items.length) 0 r.get_items
        path := posixJoin r.output_dir OVERVIEW_FILENAME } := by
  have hne : r.get_items.isEmpty = false := by
    cases hi : r.get_items with
    | nil => exact absurd hi h
    | cons a l => rfl
  simp [render_overview, hne]

/-- C1: for every item count `n ≥ 1` the overview grid composer computes
the column count as `cols = min(ceil(sqrt(n * 1.5)), 16)`, so
`1 ≤ cols ≤ 16`, and the row count as `rows = ceil(n / cols)`, which
satisfies `rows * cols ≥ n`. -/
theorem C1_grid_columns_rows (n : Nat) (hn : 1 ≤ n) :
    overviewCols n = min (⌈Real.sqrt ((n : ℝ) * 1.5)⌉₊) 16 ∧
    1 ≤ overviewCols n ∧ overviewCols n ≤ 16 ∧
    overviewRows n = ⌈(n : ℚ) / (overviewCols n : ℚ)⌉₊ ∧
    n ≤ overviewRows n * overviewCols n := by
  refine ⟨?_, overviewCols_pos n hn, ?_, ?_, overviewRows_mul_ge n hn⟩
  · rw [overviewCols, ceilSqrtThreeHalves_eq_ceil_sqrt n hn]
  · simp only [overviewCols]
    exact Nat.min_le_right _ _
  · simp only [overviewRows]
    exact add_pred_div_eq_ceil n (overviewCols n) (overviewCols_pos n hn)

/-- Witness for C1 at the concrete item count 10. -/
theorem C1_witness :
    1 ≤ 10 ∧ 10 ≤ overviewRows 10 * overviewCols 10 :=
  ⟨by decide, (C1_grid_columns_rows 10 (by decide)).2.2.2.2⟩

/-- C2: for every non-empty item list the overview canvas measures
`cols*(cell_size+padding)+padding` by `rows*(cell_size+padding)+padding`
exactly; for 10 items at cell size 120 and padding 8 this is 520 x 392
pixels. -/
theorem C2_overview_dimensions (r : Renderer) (size : Nat) (ov : Bool)
    (h : r.get_items ≠ []) :
    (∃ o, render_overview r size ov = OverviewResult.saved o ∧
      o.width = overviewCols r.get_items.length * (size + GRID_PADDING) + GRID_PADDING ∧
      o.height = overviewRows r.get_items.length * (size + GRID_PADDING) + GRID_PADDING) ∧
    overviewCols 10 * (120 + GRID_PADDING) + GRID_PADDING = 520 ∧
    overviewRows 10 * (120 + GRID_PADDING) + GRID_PADDING = 392 := by
  refine ⟨⟨_, render_overview_nonempty r size ov h, rfl, rfl⟩, by decide, by decide⟩

/-- Witness for C2 at a concrete two-item renderer with cell size 120. -/
theorem C2_witness :
    overviewCols 10 * (120 + GRID_PADDING) + GRID_PADDING = 520 ∧
    overviewRows 10 * (120 + GRID_PADDING) + GRID_PADDING = 392 :=
  (C2_overview_dimensions twoItemRenderer 120 true (by decide)).2

/-- C3: every pasted overview cell for index `idx` sits at column
`idx mod cols` and row `idx div cols`, with top-left origin
`(padding + col*(cell_size+padding), padding + row*(cell_size+padding))`,
and the index-to-cell map is injective, so no two distinct indices share
a cell. -/
theorem C3_placement_injective (r : Renderer) (size : Nat) (ov : Bool)
    (h : r.get_items ≠ []) :
    (∃ o, render_overview r size ov = OverviewResult.saved o ∧
      ∀ p ∈ o.pastes,
        p.x = GRID_PADDING +
          (p.idx % overviewCols r.get_items.length) * (size + GRID_PADDING) ∧
        p.y = GRID_PADDING +
          (p.idx / overviewCols r.get_items.length) * (size + GRID_PADDING)) ∧
    ∀ i j : Nat,
      i % overviewCols r.get_items.length = j % overviewCols r.get_items.length →
      i / overviewCols r.get_items.length = j / overviewCols r.get_items.length →
      i = j := by
  constructor
  · exact ⟨_, render_overview_nonempty r size ov h,
      overviewPastes_coords r size (overviewCols r.get_items.length) r.get_items 0⟩
  · intro i j hm hd
    calc i = overviewCols r.get_items.length * (i / overviewCols r.get_items.length)
          + i % overviewCols r.get_items.length :=
            (Nat.div_add_mod i (overviewCols r.get_items.length)).symm
      _ = overviewCols r.get_items.length * (j / overviewCols r.get_items.length)
          + j % overviewCols r.get_items.length := by rw [hm, hd]
      _ = j := Nat.div_add_mod j (overviewCols r.get_items.length)

/-- Witness for C3 at a concrete two-item renderer. -/
theorem C3_witness :
    ∃ o, render_overview twoItemRenderer 120 true = OverviewResult.saved o ∧
      ∀ p ∈ o.pastes,
        p.x = GRID_PADDING +
          (p.idx % overviewCols twoItemRenderer.get_items.length) * (120 + GRID_PADDING) ∧
        p.y = GRID_PADDING +
          (p.idx / overviewCols twoItemRenderer.get_items.length) * (120 + GRID_PADDING) :=
  (C3_placement_injective twoItemRenderer 120 true (by decide)).1

/-- C4: a `None` render result for an item X is skipped — a warning event
in the single-item pipeline, a blank (background-only) cell in the
overview — and every item after X in iteration order is still processed
with its own result and its original enumeration index; a per-item absent
result never aborts the batch or the composition. -/
theorem C4_absent_item_skipped (r : Renderer) (pre post : List String)
    (x : String) (size cols : Nat) (ov : Bool) :
    (r.render_item x size ov = none →
      render_items r (pre ++ x :: post) size ov =
        Event.mkdir r.output_dir ::
          (pre.map (itemEvent r size ov) ++
            Event.warned x :: post.map (itemEvent r size ov))) ∧
    (r.render_item x size false = none →
      overviewPastes r size cols 0 (pre ++ x :: post) =
        overviewPastes r size cols 0 pre ++
          overviewPastes r size cols (pre.length + 1) post ∧
      ∀ p ∈ overviewPastes r size cols 0 (pre ++ x :: post),
        p.idx ≠ pre.length) := by
  constructor
  · intro hx
    have hev : itemEvent r size ov x = Event.warned x := by
      simp [itemEvent, hx]
    simp [render_items, List.map_append, hev]
  · intro hx
    have hdecomp : overviewPastes r size cols 0 (pre ++ x :: post) =
        overviewPastes r size cols 0 pre ++
          overviewPastes r size cols (pre.length + 1) post := by
      rw [overviewPastes_append r size cols pre (x :: post) 0,
        overviewPastes_skip_none r size cols x post (0 + pre.length) hx]
      have e : 0 + pre.length + 1 = pre.length + 1 := by omega
      rw [e]
    refine ⟨hdecomp, ?_⟩
    intro p hp
    rw [hdecomp] at hp
    rcases List.mem_append.mp hp with h | h
    · have := overviewPastes_idx_lt r size cols pre 0 p h
      omega
    · have := overviewPastes_idx_ge r size cols post (pre.length + 1) p h
      omega

/-- Witness for C4 at a concrete renderer whose middle item fails. -/
theorem C4_witness :
    render_items skipRenderer ["a", "b", "c"] 400 true =
      Event.mkdir "out" ::
        (["a"].map (itemEvent skipRenderer 400 true) ++
          Event.warned "b" :: ["c"].map (itemEvent skipRenderer 400 true)) ∧
    overviewPastes skipRenderer 120 2 0 ["a", "b", "c"] =
      overviewPastes skipRenderer 120 2 0 ["a"] ++
        overviewPastes skipRenderer 120 2 2 ["c"] := by
  refine ⟨(C4_absent_item_skipped skipRenderer ["a"] ["c"] "b" 400 2 true).1 rfl, ?_⟩
  exact ((C4_absent_item_skipped skipRenderer ["a"] ["c"] "b" 120 2 true).2 rfl).1

/-- Unfolding of `pyRange` for a negative step. -/
theorem pyRange_neg (stop : Nat) (step : Int) (h : step < 0) :
    pyRange stop step = some [] := by
  rw [pyRange, if_neg (by omega), if_pos h]

/-- Unfolding of `pyRange` for a positive step. -/
theorem pyRange_pos (stop : Nat) (step : Int) (h : 0 < step) :
    pyRange stop step =
      some ((List.range ((stop + step.toNat - 1) / step.toNat)).map
        fun i => Int.ofNat i * step) := by
  rw [pyRange, if_neg (by omega), if_neg (by omega)]

/-- C5 (amended): for a negative spacing `draw_grid` draws nothing and
does not crash; for spacing zero the underlying `range` call raises
(modelled as `none`), so zero spacing must be rejected by the caller; for
positive spacing the call succeeds, and when the spacing is at least the
canvas dimension it draws at most a single line on that axis. -/
theorem C5_grid_degenerate (width height : Nat) (spacing : Int) :
    (spacing < 0 → draw_grid width height spacing = some ⟨[], []⟩) ∧
    (spacing = 0 → draw_grid width height spacing = none) ∧
    (0 < spacing → ∃ g, draw_grid width height spacing = some g ∧
      ((width : Int) ≤ spacing → g.vertical.length ≤ 1) ∧
      ((height : Int) ≤ spacing → g.horizontal.length ≤ 1)) := by
  refine ⟨?_, ?_, ?_⟩
  · intro h
    rw [draw_grid, pyRange_neg width spacing h, pyRange_neg height spacing h]
  · intro h
    subst h
    rfl
  · intro h
    rw [draw_grid, pyRange_pos width spacing h, pyRange_pos height spacing h]
    refine ⟨_, rfl, ?_, ?_⟩
    · intro hw
      show ((List.range ((width + spacing.toNat - 1) / spacing.toNat)).map
        fun i => Int.ofNat i * spacing).length ≤ 1
      rw [List.length_map, List.length_range]
      have hs : 1 ≤ spacing.toNat := by omega
      have hw' : width ≤ spacing.toNat := by omega
      have : (width + spacing.toNat - 1) / spacing.toNat < 2 := by
        rw [Nat.div_lt_iff_lt_mul (by omega)]
        omega
      omega
    · intro hh
      show ((List.range ((height + spacing.toNat - 1) / spacing.toNat)).map
        fun i => Int.ofNat i * spacing).length ≤ 1
      rw [List.length_map, List.length_range]
      have hs : 1 ≤ spacing.toNat := by omega
      have hh' : height ≤ spacing.toNat := by omega
      have : (height + spacing.toNat - 1) / spacing.toNat < 2 := by
        rw [Nat.div_lt_iff_lt_mul (by omega)]
        omega
      omega

/-- Counterexample for C5 as stated: at spacing 0 the grid primitive does
not produce an empty drawing — the `range` call fails (Python raises
`ValueError: range() arg 3 must not be zero`). -/
theorem C5_counterexample :
    draw_grid 10 10 0 = none ∧ draw_grid 10 10 0 ≠ some ⟨[], []⟩ := by
  decide

/-- Witness for C5 (amended) at spacings -2, 0 and 7. -/
theorem C5_witness :
    draw_grid 3 4 (-2) = some ⟨[], []⟩ ∧ draw_grid 3 4 0 = none ∧
    ∃ g, draw_grid 5 5 7 = some g ∧
      g.vertical.length ≤ 1 ∧ g.horizontal.length ≤ 1 :=
  ⟨(C5_grid_degenerate 3 4 (-2)).1 (by decide),
   (C5_grid_degenerate 3 4 0).2.1 rfl,
   match (C5_grid_degenerate 5 5 7).2.2 (by decide) with
   | ⟨g, hg, hv, hh⟩ => ⟨g, hg, hv (by decide), hh (by decide)⟩⟩

/-- The item names of the cells an overview result pasted. -/
def overviewNames : OverviewResult → List String
  | OverviewResult.notice => []
  | OverviewResult.saved o => o.pastes.map CellPaste.name

/-- C6 (amended): when overview-only is requested the run orchestrator
skips the single-item pipeline and the overview grid composer always
composes over `get_items()`; a caller-supplied item subset is ignored, so
the run result is identical with and without a subset. -/
theorem C6_overview_only_ignores_subset (r : Renderer)
    (items : Option (List String)) (size : Nat) (ov nov : Bool) :
    run r items size ov true nov = run r none size ov true nov ∧
    (run r items size ov true nov).itemEvents = [] ∧
    (r.load_artifact = true →
      (run r items size ov true nov).overview =
        some (render_overview r GRID_CELL_SIZE ov)) := by
  refine ⟨?_, ?_, ?_⟩ <;> cases h : r.load_artifact <;> simp [run, h]

/-- Counterexample for C6 as stated: with items ["a", "b"] and the caller
subset ["a"], the overview-only run composes over both items of
`get_items()`, not over the one-item subset. -/
theorem C6_counterexample :
    (run twoItemRenderer (some ["a"]) 400 true true false).overview =
      some (render_overview twoItemRenderer GRID_CELL_SIZE true) ∧
    overviewNames (render_overview twoItemRenderer GRID_CELL_SIZE true) =
      ["a", "b"] ∧
    (["a", "b"] : List String) ≠ ["a"] := by
  refine ⟨rfl, rfl, by decide⟩

/-- Witness for C6 (amended) at a concrete renderer. -/
theorem C6_witness :
    run twoItemRenderer (some ["a"]) 400 true true false =
      run twoItemRenderer none 400 true true false ∧
    (run twoItemRenderer (some ["a"]) 400 true true false).overview =
      some (render_overview twoItemRenderer GRID_CELL_SIZE true) :=
  ⟨(C6_overview_only_ignores_subset twoItemRenderer (some ["a"]) 400 true false).1,
   (C6_overview_only_ignores_subset twoItemRenderer (some ["a"]) 400 true false).2.2 rfl⟩

/-- C7: if `get_items()` returns an empty sequence the overview grid
composer emits the notice and returns without creating a file or an
error; the run still counts as successful. -/
theorem C7_empty_items_no_file (r : Renderer) (size : Nat) (ov : Bool)
    (h : r.get_items = []) :
    render_overview r size ov = OverviewResult.notice ∧
    ∀ items sz oo nov, r.load_artifact = true →
      (run r items sz ov oo nov).ok = true ∧
      ∀ o, (run r items sz ov oo nov).overview ≠
        some (OverviewResult.saved o) := by
  have hover : ∀ sz, render_overview r sz ov = OverviewResult.notice := by
    intro sz
    simp [render_overview, h]
  refine ⟨hover size, ?_⟩
  intro items sz oo nov hl
  refine ⟨?_, ?_⟩
  · cases oo <;> cases nov <;> simp [run, hl]
  · intro o
    cases oo <;> cases nov <;> simp [run, hl, hover]

/-- Witness for C7 at a concrete renderer with no items. -/
theorem C7_witness :
    render_overview emptyRenderer 120 true = OverviewResult.notice ∧
    (run emptyRenderer none 400 true false false).ok = true :=
  ⟨(C7_empty_items_no_file emptyRenderer 120 true rfl).1,
   ((C7_empty_items_no_file emptyRenderer 120 true rfl).2
     none 400 false false rfl).1⟩

/-- C8: the run's boolean outcome is false exactly when `load_artifact()`
returns false, in which case no rendering is attempted; otherwise the
run returns true after the requested stages, regardless of per-item
skips (which the model never escalates). -/
theorem C8_run_outcome (r : Renderer) (items : Option (List String))
    (size : Nat) (ov oo nov : Bool) :
    ((run r items size ov oo nov).ok = false ↔ r.load_artifact = false) ∧
    (r.load_artifact = false →
      run r items size ov oo nov = ⟨false, [], none⟩) ∧
    (r.load_artifact = true → (run r items size ov oo nov).ok = true) := by
  cases h : r.load_artifact with
  | false => simp [run, h]
  | true =>
    refine ⟨?_, ?_, ?_⟩ <;> cases oo <;> cases nov <;> simp [run, h]

/-- Witness for C8 at a renderer whose artifact load fails. -/
theorem C8_witness :
    run failingRenderer none 400 true false false = ⟨false, [], none⟩ :=
  (C8_run_outcome failingRenderer none 400 true false false).2.1 rfl

/-- C10: calling `run` with an explicitly empty item subset behaves
identically to calling it with no subset at all (Python truthiness makes
them indistinguishable), so the single-item pipeline renders every item
from `get_items()`. -/
theorem C10_empty_subset_renders_all (r : Renderer) (size : Nat)
    (ov oo nov : Bool) :
    run r (some []) size ov oo nov = run r none size ov oo nov ∧
    (r.load_artifact = true →
      (run r (some []) size ov false false).itemEvents =
        render_items r r.get_items size ov) := by
  constructor
  · cases h : r.load_artifact <;> cases oo <;> cases nov <;> simp [run, h]
  · intro h
    simp [run, h]

/-- Witness for C10 at a concrete renderer. -/
theorem C10_witness :
    run twoItemRenderer (some []) 400 true false false =
      run twoItemRenderer none 400 true false false ∧
    (run twoItemRenderer (some []) 400 true false false).itemEvents =
      render_items twoItemRenderer twoItemRenderer.get_items 400 true :=
  ⟨(C10_empty_subset_renders_all twoItemRenderer 400 true false false).1,
   (C10_empty_subset_renders_all twoItemRenderer 400 true false false).2 rfl⟩

/-- Appending strings appends their character data. -/
theorem string_data_append (s t : String) : (s ++ t).data = s.data ++ t.data := by
  cases s
  cases t
  rfl

/-- The sanitised file name never begins with a path separator: every `/`
in the original name was replaced by `_`. -/
theorem safeName_head_not_sep (name : String) :
    (safeName name ++ ".png").data.head? ≠ some '/' := by
  rw [string_data_append]
  cases name with
  | mk data =>
    cases data with
    | nil => decide
    | cons c cs =>
      simp only [safeName, replaceChar, List.map_cons, List.cons_append,
        List.head?_cons]
      intro h
      injection h with h
      split_ifs at h <;> simp_all

/-- C9: every successfully rendered item of the single-item pipeline is
persisted at `<output_dir>/<safe_name>.png`, where the safe name replaces
every `/` and `\` in the identifier with `_`, and the output directory is
created first. The hypotheses say the configured output directory is a
normal relative path (non-empty, not ending in a separator), as
`OUTPUT_DIR = "build/previews"` is. -/
theorem C9_persist_path (r : Renderer) (item_names : List String)
    (size : Nat) (ov : Bool) (name : String) (c : Canvas)
    (hd1 : r.output_dir.data ≠ [])
    (hd2 : r.output_dir.data.getLast? ≠ some '/')
    (hmem : name ∈ item_names)
    (hr : r.render_item name size ov = some c) :
    (render_items r item_names size ov).head? =
      some (Event.mkdir r.output_dir) ∧
    Event.saved name (r.output_dir ++ "/" ++ (safeName name ++ ".png")) ∈
      render_items r item_names size ov := by
  have hjoin : posixJoin r.output_dir (safeName name ++ ".png") =
      r.output_dir ++ "/" ++ (safeName name ++ ".png") := by
    rw [posixJoin, if_neg (safeName_head_not_sep name),
      if_neg (not_or.mpr ⟨hd1, hd2⟩)]
  refine ⟨rfl, ?_⟩
  rw [← hjoin]
  have hev : itemEvent r size ov name =
      Event.saved name (posixJoin r.output_dir (safeName name ++ ".png")) := by
    simp [itemEvent, hr]
  rw [render_items, ← hev]
  exact List.mem_cons_of_mem _ (List.mem_map_of_mem _ hmem)

/-- Witness for C9: item "a" of the two-item renderer lands at
`build/previews/a.png` after the directory creation event. -/
theorem C9_witness :
    (render_items twoItemRenderer ["a", "b"] 400 true).head? =
      some (Event.mkdir twoItemRenderer.output_dir) ∧
    Event.saved "a" (twoItemRenderer.output_dir ++ "/" ++ (safeName "a" ++ ".png")) ∈
      render_items twoItemRenderer ["a", "b"] 400 true :=
  C9_persist_path twoItemRenderer ["a", "b"] 400 true "a" ⟨400, 400⟩
    (by decide) (by decide) (by decide) rfl

end SelfPreview
